import Mathlib

/-
  Verification development for the umami-logger-typescript repository.

  The `UmamiLogger` class (src/UmamiLogger.ts) is embedded shallowly:
  the ambient browser state (window / navigator / document globals) becomes an
  explicit `Env` record, the singleton's mutable fields become a `LoggerState`
  record threaded through the methods, and the outbound `axios.post` becomes a
  value of type `Option SendRequest` describing the single HTTP POST a call
  performs (or `none` when the call makes no network request).  Transport
  outcomes are modelled by a function `SendRequest -> AxiosOutcome`, and the
  try/catch around the post by `runSend`.
-/

namespace Umami

/-- A JavaScript value stored in an event-data bag. -/
inductive JsValue where
  | num (n : Int)
  | str (s : String)
  | bool (b : Bool)
deriving DecidableEq, Repr

/-- EventData / IdentifyData: a JS object as an ordered association list
    (one entry per key; later assignments update in place). -/
abbrev EventData := List (String × JsValue)

/-- Assigning key k to value v in a JS object: update in place when the key is
    already present, otherwise append. -/
def setKey (d : EventData) (k : String) (v : JsValue) : EventData :=
  if d.any (fun p => p.1 == k) then
    d.map (fun p => if p.1 == k then (k, v) else p)
  else d ++ [(k, v)]

/-- Object spread: every entry of extra is assigned over base, in order.
    Models the literal with base fields first and three dots extra after. -/
def spreadInto (base extra : EventData) : EventData :=
  extra.foldl (fun acc p => setKey acc p.1 p.2) base

/-- A value read from one of the do-not-track signal sources
    (navigator.doNotTrack, window.doNotTrack, navigator.msDoNotTrack). -/
inductive DNTVal where
  | undef
  | str (s : String)
  | bool (b : Bool)
deriving DecidableEq, Repr

/-- JavaScript truthiness of a do-not-track signal value. -/
def DNTVal.truthy : DNTVal → Bool
  | .undef => false
  | .str s => s ≠ ""
  | .bool b => b

/-- JavaScript a-or-b on signal values: the first operand when truthy,
    otherwise the second. -/
def dntOr (a b : DNTVal) : DNTVal := if a.truthy then a else b

/-- The triple-equality test of the source: the value equals the string "1",
    the string "yes", or the boolean true. -/
def DNTVal.isOptOut : DNTVal → Bool
  | .str s => s == "1" || s == "yes"
  | .bool b => b
  | .undef => false

/-- The wire payload (interface UmamiPayload). Optional fields are absent keys
    when none. -/
structure UmamiPayload where
  hostname : String
  language : String
  referrer : String
  screen : String
  title : String
  url : String
  website : String
  name : Option String := none
  data : Option EventData := none
  tag : Option String := none
  id : Option String := none
deriving DecidableEq, Repr

/-- The value returned by a beforeSend callback:
    a payload object, or one of the three falsy cancel values. -/
inductive BeforeSendResult where
  | payload (p : UmamiPayload)
  | nullVal
  | falseVal
  | undefVal

/-- JavaScript truthiness of a beforeSend result (objects are truthy). -/
def BeforeSendResult.isTruthy : BeforeSendResult → Bool
  | .payload _ => true
  | _ => false

/-- Configuration (interface UmamiConfig). Optional fields are none when
    absent; undefined and missing are indistinguishable in the source. -/
structure UmamiConfig where
  baseUrl : String
  websiteId : String
  hostName : Option String := none
  tag : Option String := none
  doNotTrack : Option Bool := none
  domains : Option (List String) := none
  excludeSearch : Option Bool := none
  excludeHash : Option Bool := none
  beforeSend : Option (UmamiPayload → BeforeSendResult) := none

/-- Ambient browser environment: the globals the logger reads.
    hasWindow / hasNavigator / hasDocument model the typeof-undefined guards. -/
structure Env where
  hasWindow : Bool
  hasNavigator : Bool
  hasDocument : Bool
  hostname : String
  pathname : String
  search : String
  hash : String
  language : String
  referrer : String
  screenWidth : Nat
  screenHeight : Nat
  title : String
  navDoNotTrack : DNTVal
  winDoNotTrack : DNTVal
  msDoNotTrack : DNTVal

/-- The mutable fields of the UmamiLogger singleton. -/
structure LoggerState where
  config : Option UmamiConfig := none
  sessionId : Option String := none
  sessionData : Option EventData := none

/-- JavaScript a-or-b where a is an optional string (undefined or a string):
    yields b when a is undefined or empty. -/
def jsOrStr (a : Option String) (b : String) : String :=
  match a with
  | some s => if s = "" then b else s
  | none => b

/-- JavaScript truthiness filter on an optional string: keeps only a
    non-empty string. -/
def truthyStr (o : Option String) : Option String :=
  match o with
  | some s => if s = "" then none else some s
  | none => none

/-- isDoNotTrackEnabled of the source: false without a navigator, otherwise
    the first truthy of the three signal sources passes the opt-out test. -/
def isDoNotTrackEnabled (env : Env) : Bool :=
  if !env.hasNavigator then false
  else
    (dntOr (dntOr env.navDoNotTrack env.winDoNotTrack) env.msDoNotTrack).isOptOut

/-- isTrackingBlocked of the source: true when no configuration is set, when
    the doNotTrack option is truthy and the browser signals do-not-track, or
    when a non-empty domains list does not contain the current hostname. -/
def isTrackingBlocked (st : LoggerState) (env : Env) : Bool :=
  match st.config with
  | none => true
  | some c =>
    if c.doNotTrack.getD false && isDoNotTrackEnabled env then true
    else
      match c.domains with
      | some ds =>
        if ds.length > 0 then
          let currentDomain := if env.hasWindow then env.hostname else ""
          if ds.contains currentDomain then false else true
        else false
      | none => false

/-- buildUrl of the source: without a window the override (or empty string);
    otherwise the override-or-pathname, with the non-empty ambient search and
    hash appended unless the corresponding exclude option is truthy. -/
def buildUrl (cfg : Option UmamiConfig) (env : Env) (overrideUrl : Option String) : String :=
  if !env.hasWindow then jsOrStr overrideUrl ""
  else
    let url := jsOrStr overrideUrl env.pathname
    let url := if !(cfg.bind fun c => c.excludeSearch).getD false && env.search != "" then
        url ++ env.search else url
    let url := if !(cfg.bind fun c => c.excludeHash).getD false && env.hash != "" then
        url ++ env.hash else url
    url

/-- buildBasePayload of the source: common fields from config and ambient
    environment, with tag and id attached only when truthy. -/
def buildBasePayload (st : LoggerState) (env : Env) (overrideUrl : Option String) : UmamiPayload :=
  { hostname := jsOrStr (st.config.bind fun c => c.hostName)
      (if env.hasWindow then env.hostname else "")
    language := if env.hasNavigator then env.language else ""
    referrer := if env.hasDocument then jsOrStr (some env.referrer) "" else ""
    screen := if env.hasWindow then
        toString env.screenWidth ++ "x" ++ toString env.screenHeight else ""
    title := if env.hasDocument then env.title else ""
    url := buildUrl st.config env overrideUrl
    website := jsOrStr (st.config.map fun c => c.websiteId) ""
    name := none
    data := none
    tag := truthyStr (st.config.bind fun c => c.tag)
    id := truthyStr st.sessionId }

/-- The single outbound HTTP POST a call performs: target URL and JSON body
    fields payload and type. -/
structure SendRequest where
  apiUrl : String
  payload : UmamiPayload
  type : String
deriving DecidableEq, Repr

/-- sendData of the source, up to the axios call: none when the baseUrl is
    missing or empty or when a configured beforeSend returns a falsy value;
    otherwise the POST request, with the payload replaced by a truthy
    beforeSend result. -/
def sendData (cfg : Option UmamiConfig) (payload : UmamiPayload) (ty : String) :
    Option SendRequest :=
  match cfg with
  | none => none
  | some c =>
    if c.baseUrl = "" then none
    else
      match c.beforeSend with
      | some f =>
        match f payload with
        | .payload q => some { apiUrl := c.baseUrl ++ "/api/send", payload := q, type := ty }
        | _ => none
      | none => some { apiUrl := c.baseUrl ++ "/api/send", payload := payload, type := ty }

/-- Response body of the Umami API (interface UmamiResponse). -/
structure UmamiResponse where
  cache : Option String := none
  sessionId : Option String := none
  visitId : Option String := none
deriving DecidableEq, Repr

/-- Outcome of one axios.post call: a parsed response, or a thrown error. -/
inductive AxiosOutcome where
  | ok (r : UmamiResponse)
  | err (e : String)

/-- Awaiting axios.post: an error outcome becomes a thrown exception. -/
def axiosPost (transport : SendRequest → AxiosOutcome) (req : SendRequest) :
    Except String UmamiResponse :=
  match transport req with
  | .ok r => .ok r
  | .err e => .error e

/-- The try/catch around the post in sendData: no request resolves with no
    value; a thrown transport error is caught (logged) and the call resolves
    with no value; a response is returned. -/
def runSend (transport : SendRequest → AxiosOutcome) :
    Option SendRequest → Except String (Option UmamiResponse)
  | none => Except.ok none
  | some req =>
    match axiosPost transport req with
    | .ok r => Except.ok (some r)
    | .error _ => Except.ok none

/-- trackPageView of the source. -/
def trackPageView (st : LoggerState) (env : Env) (overrideUrl : Option String) :
    Option SendRequest :=
  if isTrackingBlocked st env then none
  else
    let payload := buildBasePayload st env overrideUrl
    let payload := match st.sessionData with
      | some d => { payload with data := some d }
      | none => payload
    sendData st.config payload "event"

/-- Partial payload (Partial of UmamiPayload): present fields override the
    base payload under object spread. -/
structure PartialPayload where
  hostname : Option String := none
  language : Option String := none
  referrer : Option String := none
  screen : Option String := none
  title : Option String := none
  url : Option String := none
  website : Option String := none
  name : Option String := none
  data : Option EventData := none
  tag : Option String := none
  id : Option String := none

/-- Object spread of a partial payload over a base payload. -/
def mergePartial (base : UmamiPayload) (m : PartialPayload) : UmamiPayload :=
  { hostname := m.hostname.getD base.hostname
    language := m.language.getD base.language
    referrer := m.referrer.getD base.referrer
    screen := m.screen.getD base.screen
    title := m.title.getD base.title
    url := m.url.getD base.url
    website := m.website.getD base.website
    name := match m.name with | some v => some v | none => base.name
    data := match m.data with | some v => some v | none => base.data
    tag := match m.tag with | some v => some v | none => base.tag
    id := match m.id with | some v => some v | none => base.id }

/-- The polymorphic first argument of track: an event-name string, a callback
    returning payload modifications, or a partial payload object. -/
inductive TrackArg where
  | str (s : String)
  | callback (f : UmamiPayload → PartialPayload)
  | payloadObj (m : PartialPayload)

/-- track of the source: dispatches on the shape of its first argument. -/
def track (st : LoggerState) (env : Env) (arg : Option TrackArg)
    (eventData : Option EventData) : Option SendRequest :=
  if isTrackingBlocked st env then none
  else
    match arg with
    | none => trackPageView st env none
    | some (.str s) =>
      let payload := buildBasePayload st env none
      let payload := { payload with name := some s }
      let payload := match eventData with
        | some d => { payload with data := some d }
        | none => payload
      sendData st.config payload "event"
    | some (.callback f) =>
      let basePayload := buildBasePayload st env none
      sendData st.config (mergePartial basePayload (f basePayload)) "event"
    | some (.payloadObj m) =>
      sendData st.config (mergePartial (buildBasePayload st env none) m) "event"

/-- logEvent of the source: no-op when unconfigured or the name is empty. -/
def logEvent (st : LoggerState) (env : Env) (eventName : String)
    (eventData : EventData) : Option SendRequest :=
  if st.config.isNone || eventName = "" then none
  else if isTrackingBlocked st env then none
  else
    let payload := buildBasePayload st env none
    sendData st.config
      { payload with name := some eventName, data := some eventData } "event"

/-- trackRevenue of the source: no-op when unconfigured or the name is empty;
    the data bag is the object literal with revenue and currency first and the
    optional additional data spread after them. -/
def trackRevenue (st : LoggerState) (env : Env) (eventName : String)
    (revenue : Int) (currency : String) (additionalData : Option EventData) :
    Option SendRequest :=
  if st.config.isNone || eventName = "" then none
  else if isTrackingBlocked st env then none
  else
    let payload := buildBasePayload st env none
    let d := spreadInto [("revenue", JsValue.num revenue), ("currency", JsValue.str currency)]
      (additionalData.getD [])
    sendData st.config
      { payload with name := some eventName, data := some d } "event"

/-- The polymorphic first argument of identify: an identifier string or a
    data object. -/
inductive IdentifyArg where
  | idStr (s : String)
  | dataObj (d : EventData)

/-- identify of the source: updates the session identity, then builds and
    sends a payload carrying the current identity. Returns the updated state
    and the request performed. -/
def identify (st : LoggerState) (env : Env) (arg : Option IdentifyArg)
    (data : Option EventData) : LoggerState × Option SendRequest :=
  if st.config.isNone then (st, none)
  else if isTrackingBlocked st env then (st, none)
  else
    let st :=
      match arg with
      | some (.idStr s) =>
        let st := { st with sessionId := some s }
        match data with
        | some d => { st with sessionData := some d }
        | none => st
      | some (.dataObj d) => { st with sessionData := some d }
      | none => st
    let payload := buildBasePayload st env none
    let payload := match st.sessionData with
      | some d => { payload with data := some d }
      | none => payload
    (st, sendData st.config payload "event")

/-- getSessionId of the source. -/
def getSessionId (st : LoggerState) : Option String := st.sessionId

/-- getSessionData of the source. -/
def getSessionData (st : LoggerState) : Option EventData := st.sessionData

/-- clearIdentity of the source. -/
def clearIdentity (st : LoggerState) : LoggerState :=
  { st with sessionId := none, sessionData := none }

/-- trackPageView followed by the awaited, caught transport call. -/
def trackPageViewRun (st : LoggerState) (env : Env)
    (transport : SendRequest → AxiosOutcome) (overrideUrl : Option String) :
    Except String (Option UmamiResponse) :=
  runSend transport (trackPageView st env overrideUrl)

/-- track followed by the awaited, caught transport call. -/
def trackRun (st : LoggerState) (env : Env)
    (transport : SendRequest → AxiosOutcome) (arg : Option TrackArg)
    (eventData : Option EventData) : Except String (Option UmamiResponse) :=
  runSend transport (track st env arg eventData)

/-- logEvent followed by the awaited, caught transport call. -/
def logEventRun (st : LoggerState) (env : Env)
    (transport : SendRequest → AxiosOutcome) (eventName : String)
    (eventData : EventData) : Except String (Option UmamiResponse) :=
  runSend transport (logEvent st env eventName eventData)

/-- trackRevenue followed by the awaited, caught transport call. -/
def trackRevenueRun (st : LoggerState) (env : Env)
    (transport : SendRequest → AxiosOutcome) (eventName : String)
    (revenue : Int) (currency : String) (additionalData : Option EventData) :
    Except String (Option UmamiResponse) :=
  runSend transport (trackRevenue st env eventName revenue currency additionalData)

/-- identify followed by the awaited, caught transport call. -/
def identifyRun (st : LoggerState) (env : Env)
    (transport : SendRequest → AxiosOutcome) (arg : Option IdentifyArg)
    (data : Option EventData) : LoggerState × Except String (Option UmamiResponse) :=
  let r := identify st env arg data
  (r.1, runSend transport r.2)

/-- Spec-side reading of the ambient do-not-track signal: the first truthy of
    the three conventional sources. Written from the specification text, to be
    compared with isDoNotTrackEnabled. -/
def specDntSignal (env : Env) : DNTVal :=
  dntOr (dntOr env.navDoNotTrack env.winDoNotTrack) env.msDoNotTrack

/-- Spec-side blocking predicate, written from the specification text: block
    iff no configuration is set, or the doNotTrack flag is true and the
    ambient signal is the string "1", the string "yes", or boolean true, or
    the configured domains list is non-empty and the ambient hostname is not a
    member. To be compared with isTrackingBlocked. -/
def isTrackingBlockedSpec (st : LoggerState) (env : Env) : Prop :=
  st.config = none ∨
  (∃ c, st.config = some c ∧
    ((c.doNotTrack = some true ∧
      (specDntSignal env = DNTVal.str "1" ∨ specDntSignal env = DNTVal.str "yes" ∨
        specDntSignal env = DNTVal.bool true)) ∨
     (∃ ds, c.domains = some ds ∧ ds ≠ [] ∧ env.hostname ∉ ds)))

/-- Spec-side URL builder, written from the specification text: the override
    verbatim when given, otherwise the ambient path; then the ambient query
    unless excludeSearch; then the ambient fragment unless excludeHash; always
    in the fixed order path, query, fragment. To be compared with buildUrl. -/
def buildUrlSpec (cfg : Option UmamiConfig) (env : Env) (overrideUrl : Option String) :
    String :=
  (match overrideUrl with
   | some u => u
   | none => env.pathname) ++
  (if (cfg.bind fun c => c.excludeSearch).getD false then "" else env.search) ++
  (if (cfg.bind fun c => c.excludeHash).getD false then "" else env.hash)

/-- The gating invariant a performed request certifies: configuration set,
    the blocking checks pass, and any configured beforeSend returned a truthy
    payload, which is the payload of the request. -/
def sendGateOk (st : LoggerState) (env : Env) (req : SendRequest) : Prop :=
  ∃ c, st.config = some c ∧ isTrackingBlocked st env = false ∧
    ∀ f, c.beforeSend = some f → ∃ p, f p = BeforeSendResult.payload req.payload

/-- Test fixture: the configuration of the repository test suite. -/
def cfgB : UmamiConfig := { baseUrl := "https://umami.is", websiteId := "w1" }

/-- Test fixture: a configured logger with no identity. -/
def stB : LoggerState := { config := some cfgB }

/-- Test fixture: the browser environment of the repository test suite. -/
def envB : Env :=
  { hasWindow := true, hasNavigator := true, hasDocument := true
    hostname := "localhost", pathname := "/test", search := "?x=1", hash := "#y"
    language := "en-US", referrer := "", screenWidth := 1024, screenHeight := 768
    title := "Test Title", navDoNotTrack := DNTVal.undef, winDoNotTrack := DNTVal.undef
    msDoNotTrack := DNTVal.undef }

/-- Test fixture: a configuration restricted to the domain a.com. -/
def cfgDom : UmamiConfig :=
  { baseUrl := "https://umami.is", websiteId := "w1", domains := some ["a.com"] }

/-- Test fixture: a configured logger that envB blocks by domain. -/
def stBlocked : LoggerState := { config := some cfgDom }

/-- Test fixture: a configured logger with a session identifier already set. -/
def stC8 : LoggerState := { config := some cfgB, sessionId := some "u1" }

/-- Test fixture: a configuration excluding query string and fragment. -/
def cfgEx : UmamiConfig :=
  { baseUrl := "https://umami.is", websiteId := "w1",
    excludeSearch := some true, excludeHash := some true }

/-- Test fixture: a configuration whose beforeSend always cancels. -/
def cfg5 : UmamiConfig :=
  { baseUrl := "https://u.is", websiteId := "w1",
    beforeSend := some fun _ => BeforeSendResult.nullVal }

/-- Test fixture: a configuration whose beforeSend replaces the payload. -/
def cfg5r : UmamiConfig :=
  { baseUrl := "https://u.is", websiteId := "w1",
    beforeSend := some fun p => BeforeSendResult.payload { p with url := "/replaced" } }

/-- Test fixture: a concrete payload. -/
def pB : UmamiPayload :=
  { hostname := "localhost", language := "en-US", referrer := "",
    screen := "1024x768", title := "Test Title", url := "/test", website := "w1" }

/-- Test fixture: the request trackPageView performs from stB in envB. -/
def reqPV : SendRequest :=
  { apiUrl := "https://umami.is/api/send",
    payload := { hostname := "localhost", language := "en-US", referrer := "",
                 screen := "1024x768", title := "Test Title", url := "/test?x=1#y",
                 website := "w1" },
    type := "event" }

/-- Test fixture: the request trackPageView performs from stB in envB after
    identify with the identifier u1. -/
def reqId1 : SendRequest :=
  { apiUrl := "https://umami.is/api/send",
    payload := { hostname := "localhost", language := "en-US", referrer := "",
                 screen := "1024x768", title := "Test Title", url := "/test?x=1#y",
                 website := "w1", id := some "u1" },
    type := "event" }

/-! ## Helper lemmas -/

theorem runSend_ok (transport : SendRequest → AxiosOutcome) (o : Option SendRequest) :
    ∃ v, runSend transport o = Except.ok v := by
  cases o with
  | none => exact ⟨none, rfl⟩
  | some req =>
    cases h : transport req with
    | ok r => exact ⟨some r, by simp [runSend, axiosPost, h]⟩
    | err e => exact ⟨none, by simp [runSend, axiosPost, h]⟩

theorem runSend_err (emsg : SendRequest → String) (o : Option SendRequest) :
    runSend (fun r => AxiosOutcome.err (emsg r)) o = Except.ok none := by
  cases o with
  | none => rfl
  | some req => rfl

theorem getD_false_eq_true_iff (o : Option Bool) : o.getD false = true ↔ o = some true := by
  cases o with
  | none => simp
  | some b => cases b <;> simp

theorem isOptOut_iff (d : DNTVal) :
    d.isOptOut = true ↔
      (d = DNTVal.str "1" ∨ d = DNTVal.str "yes" ∨ d = DNTVal.bool true) := by
  cases d with
  | undef => simp [DNTVal.isOptOut]
  | str s => simp [DNTVal.isOptOut]
  | bool b => cases b <;> simp [DNTVal.isOptOut]

theorem sendData_eq_some (cfg : Option UmamiConfig) (p : UmamiPayload) (ty : String)
    (req : SendRequest) (h : sendData cfg p ty = some req) :
    ∃ c, cfg = some c ∧
      ∀ f, c.beforeSend = some f → ∃ p0, f p0 = BeforeSendResult.payload req.payload := by
  cases cfg with
  | none => simp [sendData] at h
  | some c =>
    refine ⟨c, rfl, fun f hf => ?_⟩
    by_cases hb : c.baseUrl = ""
    · simp [sendData, hb] at h
    · cases hfp : f p with
      | payload q =>
        refine ⟨p, ?_⟩
        rw [hfp]
        simp [sendData, hb, hf, hfp] at h
        rw [← h]
      | nullVal => simp [sendData, hb, hf, hfp] at h
      | falseVal => simp [sendData, hb, hf, hfp] at h
      | undefVal => simp [sendData, hb, hf, hfp] at h

theorem send_gate_of_sendData (st : LoggerState) (env : Env) (p : UmamiPayload)
    (ty : String) (req : SendRequest) (hb : isTrackingBlocked st env = false)
    (h : sendData st.config p ty = some req) : sendGateOk st env req := by
  obtain ⟨c, hc, hbs⟩ := sendData_eq_some st.config p ty req h
  exact ⟨c, hc, hb, hbs⟩

/-! ## Claim theorems -/

/-- C1: for every configuration, argument and transport outcome, each public
    tracking method (trackPageView, track, logEvent, trackRevenue, identify)
    resolves and never rejects; on transport failure the error is swallowed
    and the call resolves with no return value. -/
theorem publicMethods_always_resolve (st : LoggerState) (env : Env)
    (transport : SendRequest → AxiosOutcome) (o : Option String) (arg : Option TrackArg)
    (ed : Option EventData) (nm : String) (d : EventData) (amt : Int) (cur : String)
    (extra : Option EventData) (ia : Option IdentifyArg) (idd : Option EventData)
    (emsg : SendRequest → String) :
    (∃ v, trackPageViewRun st env transport o = Except.ok v) ∧
    (∃ v, trackRun st env transport arg ed = Except.ok v) ∧
    (∃ v, logEventRun st env transport nm d = Except.ok v) ∧
    (∃ v, trackRevenueRun st env transport nm amt cur extra = Except.ok v) ∧
    (∃ v, (identifyRun st env transport ia idd).2 = Except.ok v) ∧
    trackPageViewRun st env (fun r => AxiosOutcome.err (emsg r)) o = Except.ok none ∧
    trackRun st env (fun r => AxiosOutcome.err (emsg r)) arg ed = Except.ok none ∧
    logEventRun st env (fun r => AxiosOutcome.err (emsg r)) nm d = Except.ok none ∧
    trackRevenueRun st env (fun r => AxiosOutcome.err (emsg r)) nm amt cur extra =
      Except.ok none ∧
    (identifyRun st env (fun r => AxiosOutcome.err (emsg r)) ia idd).2 = Except.ok none :=
  ⟨runSend_ok transport (trackPageView st env o),
   runSend_ok transport (track st env arg ed),
   runSend_ok transport (logEvent st env nm d),
   runSend_ok transport (trackRevenue st env nm amt cur extra),
   runSend_ok transport (identify st env ia idd).2,
   runSend_err emsg (trackPageView st env o),
   runSend_err emsg (track st env arg ed),
   runSend_err emsg (logEvent st env nm d),
   runSend_err emsg (trackRevenue st env nm amt cur extra),
   runSend_err emsg (identify st env ia idd).2⟩

/-- C5: when a beforeSend transform is configured, a returned null, false or
    undefined each cancels the send with no network call, and a returned
    payload object fully replaces the outgoing payload. -/
theorem beforeSend_filter_replace (c : UmamiConfig) (p : UmamiPayload)
    (f : UmamiPayload → BeforeSendResult) (hf : c.beforeSend = some f) (ty : String) :
    (f p = BeforeSendResult.nullVal → sendData (some c) p ty = none) ∧
    (f p = BeforeSendResult.falseVal → sendData (some c) p ty = none) ∧
    (f p = BeforeSendResult.undefVal → sendData (some c) p ty = none) ∧
    (∀ q, f p = BeforeSendResult.payload q → c.baseUrl ≠ "" →
      sendData (some c) p ty =
        some { apiUrl := c.baseUrl ++ "/api/send", payload := q, type := ty }) := by
  by_cases hb : c.baseUrl = ""
  · exact ⟨fun _ => by simp [sendData, hb], fun _ => by simp [sendData, hb],
      fun _ => by simp [sendData, hb], fun q _ hb2 => absurd hb hb2⟩
  · exact ⟨fun h => by simp [sendData, hb, hf, h], fun h => by simp [sendData, hb, hf, h],
      fun h => by simp [sendData, hb, hf, h],
      fun q h _ => by simp [sendData, hb, hf, h]⟩

/-- C5 witness: a cancelling and a replacing beforeSend at concrete inputs. -/
theorem beforeSend_filter_replace_witness :
    sendData (some cfg5) pB "event" = none ∧
    sendData (some cfg5r) pB "event" =
      some { apiUrl := cfg5r.baseUrl ++ "/api/send",
             payload := { pB with url := "/replaced" }, type := "event" } :=
  ⟨(beforeSend_filter_replace cfg5 pB (fun _ => BeforeSendResult.nullVal) rfl "event").1 rfl,
   (beforeSend_filter_replace cfg5r pB
      (fun p => BeforeSendResult.payload { p with url := "/replaced" }) rfl "event").2.2.2
      { pB with url := "/replaced" } rfl (by decide)⟩

/-- C10: when identify is blocked, by absent configuration or by the
    do-not-track or domain gate, the session identifier and session data are
    left completely unchanged and no request is performed. -/
theorem identify_blocked_preserves_state (st : LoggerState) (env : Env)
    (a : Option IdentifyArg) (d : Option EventData)
    (hb : isTrackingBlocked st env = true) :
    (identify st env a d).1 = st ∧ (identify st env a d).2 = none := by
  unfold identify
  cases hc : st.config with
  | none => simp [hc]
  | some c => simp [hc, hb]

/-- C10 witness: a domain-blocked identify preserves the state exactly. -/
theorem identify_blocked_preserves_state_witness :
    (identify stBlocked envB (some (IdentifyArg.idStr "u1")) none).1 = stBlocked ∧
    (identify stBlocked envB (some (IdentifyArg.idStr "u1")) none).2 = none :=
  identify_blocked_preserves_state stBlocked envB (some (IdentifyArg.idStr "u1")) none
    (by decide)

/-- C2: over every public operation, a request is performed only if
    configuration is set, the blocking checks pass, and any configured
    beforeSend transform returned a truthy payload. -/
theorem send_only_when_gates_pass (st : LoggerState) (env : Env) :
    (∀ o req, trackPageView st env o = some req → sendGateOk st env req) ∧
    (∀ arg ed req, track st env arg ed = some req → sendGateOk st env req) ∧
    (∀ nm d req, logEvent st env nm d = some req → sendGateOk st env req) ∧
    (∀ nm amt cur extra req, trackRevenue st env nm amt cur extra = some req →
      sendGateOk st env req) ∧
    (∀ a d req, (identify st env a d).2 = some req → sendGateOk st env req) := by
  have hpv : ∀ o req, trackPageView st env o = some req → sendGateOk st env req := by
    intro o req h
    cases hb : isTrackingBlocked st env with
    | true => simp [trackPageView, hb] at h
    | false =>
      simp only [trackPageView, hb, Bool.false_eq_true, if_false] at h
      exact send_gate_of_sendData st env _ _ req hb h
  refine ⟨hpv, ?_, ?_, ?_, ?_⟩
  · intro arg ed req h
    cases hb : isTrackingBlocked st env with
    | true => simp [track, hb] at h
    | false =>
      simp only [track, hb, Bool.false_eq_true, if_false] at h
      cases arg with
      | none => exact hpv none req h
      | some a =>
        cases a with
        | str s => exact send_gate_of_sendData st env _ _ req hb h
        | callback f => exact send_gate_of_sendData st env _ _ req hb h
        | payloadObj m => exact send_gate_of_sendData st env _ _ req hb h
  · intro nm d req h
    unfold logEvent at h
    split at h
    · exact absurd h (by simp)
    · split at h
      · exact absurd h (by simp)
      · next hnb =>
        have hb : isTrackingBlocked st env = false := by simpa using hnb
        exact send_gate_of_sendData st env _ _ req hb h
  · intro nm amt cur extra req h
    unfold trackRevenue at h
    split at h
    · exact absurd h (by simp)
    · split at h
      · exact absurd h (by simp)
      · next hnb =>
        have hb : isTrackingBlocked st env = false := by simpa using hnb
        exact send_gate_of_sendData st env _ _ req hb h
  · intro a d req h
    unfold identify at h
    split at h
    · exact absurd h (by simp)
    · split at h
      · exact absurd h (by simp)
      · next hnb =>
        have hb : isTrackingBlocked st env = false := by simpa using hnb
        cases a with
        | none => exact send_gate_of_sendData st env _ _ req hb h
        | some ia =>
          cases ia with
          | idStr s =>
            cases d with
            | none => exact send_gate_of_sendData st env _ _ req hb h
            | some dd => exact send_gate_of_sendData st env _ _ req hb h
          | dataObj dd => exact send_gate_of_sendData st env _ _ req hb h

/-- C2 witness: the invariant certified by the request trackPageView performs
    from the concrete configured state. -/
theorem send_only_when_gates_pass_witness : sendGateOk stB envB reqPV :=
  (send_only_when_gates_pass stB envB).1 none reqPV (by decide)

/-- C3: in a browser environment isTrackingBlocked returns true exactly as the
    specification predicate states, and an empty configured domains list never
    domain-blocks: blocking then depends only on the do-not-track gate. -/
theorem isTrackingBlocked_agrees_spec (st : LoggerState) (env : Env)
    (hw : env.hasWindow = true) (hn : env.hasNavigator = true) :
    (isTrackingBlocked st env = true ↔ isTrackingBlockedSpec st env) ∧
    (∀ c, st.config = some c → c.domains = some [] →
      isTrackingBlocked st env = (c.doNotTrack.getD false && isDoNotTrackEnabled env)) := by
  have hdnt : isDoNotTrackEnabled env = (specDntSignal env).isOptOut := by
    simp [isDoNotTrackEnabled, specDntSignal, hn]
  constructor
  · cases hc : st.config with
    | none =>
      simp [isTrackingBlocked, isTrackingBlockedSpec, hc]
    | some c =>
      constructor
      · intro h
        simp only [isTrackingBlocked, hc] at h
        by_cases hA : (c.doNotTrack.getD false && isDoNotTrackEnabled env) = true
        · obtain ⟨h1, h2⟩ := Bool.and_eq_true_iff.mp hA
          rw [hdnt] at h2
          exact Or.inr ⟨c, hc, Or.inl ⟨(getD_false_eq_true_iff _).mp h1,
            (isOptOut_iff _).mp h2⟩⟩
        · have hA2 : (c.doNotTrack.getD false && isDoNotTrackEnabled env) = false :=
            Bool.eq_false_iff.mpr hA
          rw [hA2] at h
          simp only [Bool.false_eq_true, if_false] at h
          cases hdom : c.domains with
          | none => rw [hdom] at h; simp at h
          | some ds =>
            rw [hdom] at h
            cases ds with
            | nil => simp at h
            | cons a t =>
              simp only [hw, if_true, List.length_cons] at h
              have hcont : ((a :: t).contains env.hostname = true) ↔
                  env.hostname ∈ a :: t := by simp
              by_cases hm : env.hostname ∈ a :: t
              · rw [if_pos (Nat.succ_pos _), if_pos (hcont.mpr hm)] at h
                exact absurd h (by simp)
              · exact Or.inr ⟨c, hc, Or.inr ⟨a :: t, hdom, List.cons_ne_nil a t, hm⟩⟩
      · intro hs
        rcases hs with hnone | ⟨c1, hc1, hcase⟩
        · rw [hc] at hnone; cases hnone
        · rw [hc] at hc1
          injection hc1 with hc1e
          subst hc1e
          rcases hcase with ⟨hd1, hd2⟩ | ⟨ds, hds, hne, hnm⟩
          · have h1 : c.doNotTrack.getD false = true := (getD_false_eq_true_iff _).mpr hd1
            have h2 : isDoNotTrackEnabled env = true := by
              rw [hdnt]; exact (isOptOut_iff _).mpr hd2
            simp [isTrackingBlocked, hc, h1, h2]
          · cases ds with
            | nil => exact absurd rfl hne
            | cons a t =>
              have hcont : ((a :: t).contains env.hostname = true) ↔
                  env.hostname ∈ a :: t := by simp
              have hcf : (a :: t).contains env.hostname = false := by
                rw [Bool.eq_false_iff]
                intro hcc
                exact hnm (hcont.mp hcc)
              cases hA : (c.doNotTrack.getD false && isDoNotTrackEnabled env) <;>
                simp [isTrackingBlocked, hc, hds, hA, hw, hcf]
              simpa [List.mem_cons, not_or] using hnm
  · intro c hcc hdom
    cases hA : (c.doNotTrack.getD false && isDoNotTrackEnabled env) <;>
      simp [isTrackingBlocked, hcc, hdom, hA]

/-- C3 witness: the specification predicate holds at a concrete domain-blocked
    state, obtained from the agreement theorem. -/
theorem isTrackingBlocked_agrees_spec_witness : isTrackingBlockedSpec stBlocked envB :=
  ((isTrackingBlocked_agrees_spec stBlocked envB rfl rfl).1).mp (by decide)

/-- C4 counterexample: the empty string is a given overrideUrl, yet buildUrl
    does not use it verbatim as the path: it falls back to the ambient path,
    so the claimed equality fails at this concrete input. -/
theorem buildUrl_empty_override_cex :
    buildUrl (some cfgB) envB (some "") ≠ buildUrlSpec (some cfgB) envB (some "") := by
  decide

/-- C4 amended: in a browser environment, for every absent or non-empty
    overrideUrl, buildUrl equals the spec-side composition in the fixed order
    path, query, fragment, with the exclude options removing query and
    fragment. -/
theorem buildUrl_amended (cfg : Option UmamiConfig) (env : Env) (o : Option String)
    (hw : env.hasWindow = true) (ho : o ≠ some "") :
    buildUrl cfg env o = buildUrlSpec cfg env o := by
  have hover : jsOrStr o env.pathname =
      (match o with | some u => u | none => env.pathname) := by
    cases o with
    | none => rfl
    | some u =>
      have hu : u ≠ "" := fun he => ho (by rw [he])
      simp [jsOrStr, hu]
  unfold buildUrl buildUrlSpec
  rw [hw]
  simp only [Bool.not_true, Bool.false_eq_true, if_false]
  rw [hover]
  by_cases hs : env.search = "" <;> by_cases hh : env.hash = "" <;>
    cases hes : (cfg.bind fun c => c.excludeSearch).getD false <;>
    cases heh : (cfg.bind fun c => c.excludeHash).getD false <;>
    simp [hs, hh, hes, heh, String.append_empty]
  all_goals cases o <;> rfl

/-- C4 witness: the amended equality at concrete inputs, including the
    both-excludes scenario. -/
theorem buildUrl_amended_witness :
    buildUrl (some cfgB) envB (some "/page") = buildUrlSpec (some cfgB) envB (some "/page") ∧
    buildUrl (some cfgEx) envB none = buildUrlSpec (some cfgEx) envB none :=
  ⟨buildUrl_amended (some cfgB) envB (some "/page") rfl (by decide),
   buildUrl_amended (some cfgEx) envB none rfl (by decide)⟩

/-- C6: trackRevenue is a no-op when configuration is absent or the name is
    the empty string; otherwise the built payload's data is the object with
    the revenue and currency keys first and the extra data spread last, so a
    same-named key in extra overrides. -/
theorem trackRevenue_noop_and_merge (st : LoggerState) (env : Env) (nm : String)
    (amt : Int) (cur : String) (extra : Option EventData) :
    ((st.config = none ∨ nm = "") → trackRevenue st env nm amt cur extra = none) ∧
    (∀ c req, st.config = some c → c.beforeSend = none →
      trackRevenue st env nm amt cur extra = some req →
      req.payload.data = some (spreadInto
        [("revenue", JsValue.num amt), ("currency", JsValue.str cur)] (extra.getD []))) := by
  constructor
  · rintro (hc | hn)
    · simp [trackRevenue, hc]
    · simp [trackRevenue, hn]
  · intro c req hc hbs h
    by_cases hn : nm = ""
    · simp [trackRevenue, hn] at h
    · cases hb : isTrackingBlocked st env with
      | true => simp [trackRevenue, hc, hn, hb] at h
      | false =>
        simp only [trackRevenue, hc, hn, hb] at h
        by_cases hu : c.baseUrl = ""
        · simp [sendData, hu] at h
        · simp only [sendData, hu, hbs, Option.isNone_some, Bool.false_or,
            decide_eq_true_eq, if_neg hn, Bool.false_eq_true, if_false,
            Option.some.injEq] at h
          subst h
          rfl

/-- C6 witness: empty name never dispatches; a currency key in the extra data
    overrides the fixed currency key. -/
theorem trackRevenue_noop_and_merge_witness :
    trackRevenue stB envB "" 1 "USD" none = none ∧
    (trackRevenue stB envB "purchase" 10 "USD"
        (some [("currency", JsValue.str "override")])).map (fun r => r.payload.data) =
      some (some [("revenue", JsValue.num 10), ("currency", JsValue.str "override")]) := by
  refine ⟨(trackRevenue_noop_and_merge stB envB "" 1 "USD" none).1 (Or.inr rfl), ?_⟩
  cases h : trackRevenue stB envB "purchase" 10 "USD"
      (some [("currency", JsValue.str "override")]) with
  | none => exact absurd h (by decide)
  | some req =>
    have h2 := (trackRevenue_noop_and_merge stB envB "purchase" 10 "USD"
      (some [("currency", JsValue.str "override")])).2 cfgB req rfl rfl h
    simp only [Option.map_some']
    rw [h2]
    decide

/-- C7 counterexample: identify with the empty string stores it as the session
    identifier yet the request of a subsequent trackPageView carries no id
    field; and after identify with u1, track with a payload object overriding
    the id field dispatches that overriding id, not the stored identifier. So
    the claim that every subsequent tracking call's payload carries the
    identifier fails at these concrete inputs. -/
theorem identify_carry_cex :
    ((identify stB envB (some (IdentifyArg.idStr "")) none).1.sessionId = some "" ∧
     ((trackPageView (identify stB envB (some (IdentifyArg.idStr "")) none).1 envB none).map
       (fun r => r.payload.id)) = some none) ∧
    ((track (identify stB envB (some (IdentifyArg.idStr "u1")) none).1 envB
        (some (TrackArg.payloadObj { id := some "x" })) none).map
      (fun r => r.payload.id)) = some (some "x") := by
  exact ⟨⟨by decide, by decide⟩, by decide⟩

/-- C7 amended: a string first argument becomes the session identifier, a
    supplied second argument replaces prior session data, a data object first
    argument becomes the session data with the identifier unchanged;
    afterwards (base URL set, no transform) a payload carrying the current
    identifier and data is sent. While a non-empty identifier is stored, every
    tracking call's built base payload carries it, and every request
    dispatched by trackPageView, track with an absent or string argument,
    logEvent or trackRevenue carries it when no transform is configured; an
    empty identifier is never attached, and a track payload object or
    callback, or a transform, can override the id field. -/
theorem identify_amended (st : LoggerState) (env : Env) (c : UmamiConfig)
    (hc : st.config = some c) (hb : isTrackingBlocked st env = false) :
    (∀ s d2,
      (identify st env (some (IdentifyArg.idStr s)) d2).1.sessionId = some s ∧
      (∀ d, d2 = some d →
        (identify st env (some (IdentifyArg.idStr s)) d2).1.sessionData = some d) ∧
      (d2 = none →
        (identify st env (some (IdentifyArg.idStr s)) d2).1.sessionData = st.sessionData)) ∧
    (∀ d d2,
      (identify st env (some (IdentifyArg.dataObj d)) d2).1.sessionData = some d ∧
      (identify st env (some (IdentifyArg.dataObj d)) d2).1.sessionId = st.sessionId) ∧
    (c.baseUrl ≠ "" → c.beforeSend = none → ∀ s d2, s ≠ "" →
      ∃ req, (identify st env (some (IdentifyArg.idStr s)) d2).2 = some req ∧
        req.payload.id = some s ∧
        req.payload.data = (identify st env (some (IdentifyArg.idStr s)) d2).1.sessionData) ∧
    (∀ st2 env2 s, st2.sessionId = some s → s ≠ "" →
      (∀ o, (buildBasePayload st2 env2 o).id = some s) ∧
      (∀ c2, st2.config = some c2 → c2.beforeSend = none →
        (∀ o req, trackPageView st2 env2 o = some req → req.payload.id = some s) ∧
        (∀ ed req, track st2 env2 none ed = some req → req.payload.id = some s) ∧
        (∀ nm ed req, track st2 env2 (some (TrackArg.str nm)) ed = some req →
          req.payload.id = some s) ∧
        (∀ nm d req, logEvent st2 env2 nm d = some req → req.payload.id = some s) ∧
        (∀ nm amt cur extra req, trackRevenue st2 env2 nm amt cur extra = some req →
          req.payload.id = some s))) := by
  have hnc : st.config.isNone = false := by rw [hc]; rfl
  refine ⟨?_, ?_, ?_, ?_⟩
  · intro s d2
    refine ⟨?_, ?_, ?_⟩
    · cases d2 <;> simp [identify, hnc, hb]
    · intro d hd
      subst hd
      simp [identify, hnc, hb]
    · intro hd
      subst hd
      simp [identify, hnc, hb]
  · intro d d2
    exact ⟨by simp [identify, hnc, hb], by simp [identify, hnc, hb]⟩
  · intro hu hbs s d2 hs
    cases d2 with
    | none =>
      cases hsd : st.sessionData with
      | none =>
        simp only [identify, hnc, Bool.false_eq_true, if_false, hb, hc, hsd,
          sendData, hbs, if_neg hu]
        refine ⟨_, rfl, ?_, ?_⟩
        · simp [buildBasePayload, truthyStr, hs]
        · simp [buildBasePayload]
      | some d0 =>
        simp only [identify, hnc, Bool.false_eq_true, if_false, hb, hc, hsd,
          sendData, hbs, if_neg hu]
        refine ⟨_, rfl, ?_, ?_⟩
        · simp [buildBasePayload, truthyStr, hs]
        · simp
    | some d =>
      simp only [identify, hnc, Bool.false_eq_true, if_false, hb, hc,
        sendData, hbs, if_neg hu]
      refine ⟨_, rfl, ?_, ?_⟩
      · simp [buildBasePayload, truthyStr, hs]
      · simp
  · intro st2 env2 s hsid hs
    have hbb : ∀ o, (buildBasePayload st2 env2 o).id = some s := by
      intro o
      simp [buildBasePayload, truthyStr, hsid, hs]
    refine ⟨hbb, ?_⟩
    intro c2 hc2 hbs2
    have hsend : ∀ p req2, sendData st2.config p "event" = some req2 →
        req2.payload = p := by
      intro p req2 h2
      rw [hc2] at h2
      by_cases hu : c2.baseUrl = ""
      · simp [sendData, hu] at h2
      · simp only [sendData, hbs2, if_neg hu, Option.some.injEq] at h2
        subst h2
        rfl
    have hpv : ∀ o req, trackPageView st2 env2 o = some req →
        req.payload.id = some s := by
      intro o req h
      cases hb2 : isTrackingBlocked st2 env2 with
      | true => simp [trackPageView, hb2] at h
      | false =>
        simp only [trackPageView, hb2, Bool.false_eq_true, if_false] at h
        rw [hsend _ req h]
        cases st2.sessionData <;> exact hbb o
    refine ⟨hpv, ?_, ?_, ?_, ?_⟩
    · intro ed req h
      cases hb2 : isTrackingBlocked st2 env2 with
      | true => simp [track, hb2] at h
      | false =>
        simp only [track, hb2, Bool.false_eq_true, if_false] at h
        exact hpv none req h
    · intro nm ed req h
      cases hb2 : isTrackingBlocked st2 env2 with
      | true => simp [track, hb2] at h
      | false =>
        simp only [track, hb2, Bool.false_eq_true, if_false] at h
        cases ed with
        | none =>
          rw [hsend _ req h]
          exact hbb none
        | some d =>
          rw [hsend _ req h]
          exact hbb none
    · intro nm d req h
      unfold logEvent at h
      split at h
      · exact absurd h (by simp)
      · split at h
        · exact absurd h (by simp)
        · rw [hsend _ req h]
          exact hbb none
    · intro nm amt cur extra req h
      unfold trackRevenue at h
      split at h
      · exact absurd h (by simp)
      · split at h
        · exact absurd h (by simp)
        · rw [hsend _ req h]
          exact hbb none

/-- C7 witness: identify with u1 sets the session identifier, and the request
    of a subsequent trackPageView from the post-identify state carries id u1,
    obtained through the carry conjunct of the amended theorem. -/
theorem identify_amended_witness :
    (identify stB envB (some (IdentifyArg.idStr "u1")) none).1.sessionId = some "u1" ∧
    reqId1.payload.id = some "u1" :=
  ⟨((identify_amended stB envB cfgB rfl rfl).1 "u1" none).1,
   (((identify_amended stB envB cfgB rfl rfl).2.2.2
       (identify stB envB (some (IdentifyArg.idStr "u1")) none).1 envB "u1"
       (by decide) (by decide)).2 cfgB rfl rfl).1 none reqId1 (by decide)⟩

/-- C8 counterexample: a configured reporter whose session id is already set
    keeps it after identify with a data object, and a configured but
    domain-blocked reporter does not take the session data at all, so the
    claim quantified over every configured reporter fails at these concrete
    inputs. -/
theorem identify_roundtrip_cex :
    (identify stC8 envB
      (some (IdentifyArg.dataObj [("name", JsValue.str "John")])) none).1.sessionId
        = some "u1" ∧
    (identify stBlocked envB
      (some (IdentifyArg.dataObj [("name", JsValue.str "John")])) none).1.sessionData
        = none := by
  exact ⟨by decide, by decide⟩

/-- C8 amended: for every configured reporter that is not blocked and whose
    session id is unset, identify with the data object name John sets the
    session data to it and leaves the session id unset, and clearIdentity
    afterwards restores both session id and session data to unset. -/
theorem identify_roundtrip_amended (st : LoggerState) (env : Env) (c : UmamiConfig)
    (hc : st.config = some c) (hb : isTrackingBlocked st env = false)
    (hid : st.sessionId = none) :
    getSessionData (identify st env
      (some (IdentifyArg.dataObj [("name", JsValue.str "John")])) none).1
        = some [("name", JsValue.str "John")] ∧
    getSessionId (identify st env
      (some (IdentifyArg.dataObj [("name", JsValue.str "John")])) none).1 = none ∧
    getSessionId (clearIdentity (identify st env
      (some (IdentifyArg.dataObj [("name", JsValue.str "John")])) none).1) = none ∧
    getSessionData (clearIdentity (identify st env
      (some (IdentifyArg.dataObj [("name", JsValue.str "John")])) none).1) = none := by
  have hnc : st.config.isNone = false := by rw [hc]; rfl
  refine ⟨?_, ?_, ?_, ?_⟩ <;>
    simp [identify, hnc, hb, hid, getSessionId, getSessionData, clearIdentity]

/-- C8 witness: the amended round-trip at the concrete configured state. -/
theorem identify_roundtrip_amended_witness :
    getSessionData (identify stB envB
      (some (IdentifyArg.dataObj [("name", JsValue.str "John")])) none).1
        = some [("name", JsValue.str "John")] ∧
    getSessionId (identify stB envB
      (some (IdentifyArg.dataObj [("name", JsValue.str "John")])) none).1 = none ∧
    getSessionId (clearIdentity (identify stB envB
      (some (IdentifyArg.dataObj [("name", JsValue.str "John")])) none).1) = none ∧
    getSessionData (clearIdentity (identify stB envB
      (some (IdentifyArg.dataObj [("name", JsValue.str "John")])) none).1) = none :=
  identify_roundtrip_amended stB envB cfgB rfl rfl rfl

/-- C9: with a configuration set (non-empty base URL, no transform configured)
    and gating passing, track with the empty string as event name takes the
    string branch and dispatches a request whose name field is the empty
    string, whereas logEvent with the empty string never dispatches. -/
theorem track_empty_name_dispatches (st : LoggerState) (env : Env) (c : UmamiConfig)
    (ed : Option EventData) (hc : st.config = some c)
    (hb : isTrackingBlocked st env = false) (hu : c.baseUrl ≠ "")
    (hbs : c.beforeSend = none) :
    (track st env (some (TrackArg.str "")) ed).isSome = true ∧
    (∀ req, track st env (some (TrackArg.str "")) ed = some req →
      req.payload.name = some "") ∧
    (∀ st2 env2 d, logEvent st2 env2 "" d = none) := by
  refine ⟨?_, ?_, ?_⟩
  · cases ed <;> simp [track, hb, hc, sendData, hbs, hu]
  · intro req h
    cases ed with
    | none =>
      simp only [track, hb, Bool.false_eq_true, if_false, hc, sendData, hbs,
        if_neg hu, Option.some.injEq] at h
      subst h
      rfl
    | some d =>
      simp only [track, hb, Bool.false_eq_true, if_false, hc, sendData, hbs,
        if_neg hu, Option.some.injEq] at h
      subst h
      rfl
  · intro st2 env2 d
    simp [logEvent]

/-- C9 witness: the empty-name track dispatches from the concrete state while
    the empty-name logEvent does not. -/
theorem track_empty_name_dispatches_witness :
    (track stB envB (some (TrackArg.str "")) none).isSome = true ∧
    logEvent stB envB "" [] = none :=
  ⟨(track_empty_name_dispatches stB envB cfgB none rfl rfl (by decide) rfl).1,
   (track_empty_name_dispatches stB envB cfgB none rfl rfl (by decide) rfl).2.2 stB envB []⟩

end Umami
